import Mathlib

/-!
Shallow embedding of the verisure Go client (package verisure, file
verisure.go).  The HTTP transport (http.Client.Do), the JSON encoder for
update payloads (json.Marshal) and the JSON decoder for Overview bodies
are external collaborators; they are modelled as oracle parameters.  Each
operation returns the post-state of the client, the Go return value
(errors as strings, matching fmt.Errorf formatting) and the ordered list
of HTTP requests handed to the transport.
-/

/-- JSON values, used to model response bodies already parsed from bytes. -/
inductive JSON where
  | null
  | bool (b : Bool)
  | num (n : Int)
  | str (s : String)
  | arr (elems : List JSON)
  | obj (fields : List (String × JSON))

/-- Go: var mediaType = "application/json". -/
def mediaType : String := "application/json"

/-- Go: var apiURLs, the fixed ordered candidate endpoint list. -/
def apiURLs : List String :=
  ["https://e-api01.verisure.com/xbn/2",
   "https://e-api02.verisure.com/xbn/2"]

/-- An outbound HTTP request as the code builds it: method, URL, the
headers added explicitly, the basic-auth identity set by SetBasicAuth,
and the body bytes (none for body-less requests). -/
structure Request where
  method : String
  url : String
  headers : List (String × String)
  basicAuth : Option (String × String)
  body : Option String
deriving Repr, DecidableEq

/-- An HTTP response: numeric status code, status line text, and the body
(already parsed as a JSON value). -/
structure Response where
  statusCode : Nat
  status : String
  body : JSON

/-- The transport oracle: http.Client.Do either fails with a transport
error or yields a response. -/
abbrev Net := Request → Except String Response

/-- Go: type Verisure struct { baseURL string; giid string; client http.Client }.
The cookie jar carries no decision logic visible to the core, so it is
not modelled. -/
structure Verisure where
  baseURL : String
  giid : String
deriving Repr, DecidableEq

/-- Go: func newRequest — builds a request and adds the two media-type
headers.  URL-parse failures of the Go standard library are not modelled:
all URLs the code builds are plain string concatenations. -/
def newRequest (method url : String) (body : Option String) : Request :=
  { method := method, url := url,
    headers := [("Accept", mediaType), ("Content-Type", mediaType)],
    basicAuth := none, body := body }

/-- Error string of fmt.Errorf with a call-site tag, a %d status code and
a %s status line. -/
def statusError (tag : String) (res : Response) : String :=
  tag ++ ": " ++ toString res.statusCode ++ " " ++ res.status

/-- Decoding one JSON value into a Go map[string]interface\x7b\x7d: succeeds
exactly on objects. -/
def asMap : JSON → Except String (List (String × JSON))
  | .obj fields => .ok fields
  | _ => .error "json: cannot unmarshal into map"

/-- Decoding a list of JSON values element-wise into Go maps; the first
non-object aborts with its error, as json.Decode does. -/
def asMapList : List JSON → Except String (List (List (String × JSON)))
  | [] => .ok []
  | x :: xs =>
    match asMap x with
    | .error e => .error e
    | .ok m =>
      match asMapList xs with
      | .error e => .error e
      | .ok ms => .ok (m :: ms)

/-- Go: json.NewDecoder(rc).Decode(&result) with result of type
[]map[string]interface\x7b\x7d.  A JSON array decodes element-wise, JSON null
leaves the slice empty, anything else is a decode error. -/
def decodeMaps : JSON → Except String (List (List (String × JSON)))
  | .arr elems => asMapList elems
  | .null => .ok []
  | _ => .error "json: cannot unmarshal into slice"

/-- Indexing a Go map that was populated by JSON decoding: with duplicate
keys the later binding overwrites the earlier, so lookup returns the last
binding for the key. -/
def mapIndex (fields : List (String × JSON)) (key : String) : Option JSON :=
  fields.foldl (fun acc kv => if kv.1 = key then some kv.2 else acc) none

/-- Go: func giid(rc io.ReadCloser) (string, error) — decodes the body as
a list of open-ended records, requires it non-empty, and extracts the
first record's giid key as a string. -/
def giid (body : JSON) : Except String String :=
  match decodeMaps body with
  | .error e => .error e
  | .ok result =>
    match result with
    | [] => .error "no installations found"
    | first :: _ =>
      match mapIndex first "giid" with
      | some (.str s) => .ok s
      | _ => .error "no giid found"

/-- The request that authenticate builds: POST to base + "/cookie" through
newRequest, then SetBasicAuth("CPE/" + username, password). -/
def authRequest (base username password : String) : Request :=
  { newRequest "POST" (base ++ "/cookie") none with
    basicAuth := some ("CPE/" ++ username, password) }

/-- Go: func (v *Verisure) authenticate — one POST, strict HTTP 200 check,
non-200 formatted as "login: code status". -/
def Verisure.authenticate (net : Net) (v : Verisure) (username password : String) :
    Except String Unit × List Request :=
  let req := authRequest v.baseURL username password
  match net req with
  | .error e => (.error e, [req])
  | .ok res =>
    if res.statusCode ≠ 200 then (.error (statusError "login" res), [req])
    else (.ok (), [req])

/-- The result of a single authentication attempt against base, as a
function of the transport oracle only. -/
def authOutcome (net : Net) (username password base : String) : Except String Unit :=
  match net (authRequest base username password) with
  | .error e => .error e
  | .ok res =>
    if res.statusCode ≠ 200 then .error (statusError "login" res)
    else .ok ()

/-- Whether a single authentication attempt against base succeeds (the
transport yields a response with status 200). -/
def authOK (net : Net) (username password base : String) : Bool :=
  match net (authRequest base username password) with
  | .ok res => res.statusCode == 200
  | .error _ => false

/-- The loop body of tryURLs, generalized over the remaining URL list and
the running err variable (Go: var err error, initially nil): each
iteration assigns v.baseURL = u, authenticates, and breaks on success;
the last err is returned. -/
def tryURLsLoop (net : Net) (username password : String) :
    List String → Verisure → Except String Unit →
    Verisure × Except String Unit × List Request
  | [], v, err => (v, err, [])
  | u :: rest, v, _ =>
    let v' : Verisure := { v with baseURL := u }
    let a := v'.authenticate net username password
    match a.1 with
    | .ok _ => (v', .ok (), a.2)
    | .error e =>
      let r := tryURLsLoop net username password rest v' (.error e)
      (r.1, r.2.1, a.2 ++ r.2.2)

/-- Go: func (v *Verisure) tryURLs — the loop over the fixed apiURLs. -/
def Verisure.tryURLs (net : Net) (v : Verisure) (username password : String) :
    Verisure × Except String Unit × List Request :=
  tryURLsLoop net username password apiURLs v (.ok ())

/-- The installation-search request: GET to
base + "/installation/search?email=" + username through newRequest. -/
def searchRequest (base username : String) : Request :=
  newRequest "GET" (base ++ "/installation/search?email=" ++ username) none

/-- Go: func (v *Verisure) installation — one GET, strict 200 check
formatted as "installations: code status", then giid on the body. -/
def installation (net : Net) (v : Verisure) (username : String) :
    Except String String × List Request :=
  let req := searchRequest v.baseURL username
  match net req with
  | .error e => (.error e, [req])
  | .ok res =>
    if res.statusCode ≠ 200 then (.error (statusError "installations" res), [req])
    else (giid res.body, [req])

/-- Go: func (v *Verisure) Login — tryURLs, then installation on the fixed
endpoint; only on full success is v.giid assigned. -/
def Verisure.Login (net : Net) (v : Verisure) (username password : String) :
    Verisure × Except String Unit × List Request :=
  match v.tryURLs net username password with
  | (v1, .error e, t1) => (v1, .error e, t1)
  | (v1, .ok _, t1) =>
    match installation net v1 username with
    | (.error e, t2) => (v1, .error e, t1 ++ t2)
    | (.ok g, t2) => ({ v1 with giid := g }, .ok (), t1 ++ t2)

/-- The logout request: Go Logout calls http.NewRequest directly (not the
newRequest helper), so no headers are added. -/
def logoutRequest (base : String) : Request :=
  { method := "DELETE", url := base ++ "/cookie", headers := [],
    basicAuth := none, body := none }

/-- Go: func (v *Verisure) Logout — one DELETE, strict 200 check formatted
as "logout: code status"; no field of v is assigned. -/
def Verisure.Logout (net : Net) (v : Verisure) :
    Verisure × Except String Unit × List Request :=
  let req := logoutRequest v.baseURL
  match net req with
  | .error e => (v, .error e, [req])
  | .ok res =>
    if res.statusCode ≠ 200 then (v, .error (statusError "logout" res), [req])
    else (v, .ok (), [req])

/-- The overview request: GET to
base + "/installation/" + giid + "/overview" through newRequest. -/
def overviewRequest (base g : String) : Request :=
  newRequest "GET" (base ++ "/installation/" ++ g ++ "/overview") none

/-- Go: func (v *Verisure) Overview — one GET, strict 200 check formatted
as "overview: code status", then the body is decoded into the generated
Overview struct; that mechanical decoding is the oracle dec. -/
def Verisure.Overview {α : Type} (net : Net) (dec : JSON → Except String α)
    (v : Verisure) : Verisure × Except String α × List Request :=
  let req := overviewRequest v.baseURL v.giid
  match net req with
  | .error e => (v, .error e, [req])
  | .ok res =>
    if res.statusCode ≠ 200 then (v, .error (statusError "overview" res), [req])
    else
      match dec res.body with
      | .error e => (v, .error e, [req])
      | .ok o => (v, .ok o, [req])

/-- Go: type SmartPlugState struct \x7b DeviceLabel string; State bool \x7d. -/
structure SmartPlugState where
  deviceLabel : String
  state : Bool
deriving Repr, DecidableEq

/-- The smart-plug update request: POST of the marshalled bytes to
base + "/installation/" + giid + "/smartplug/state" through newRequest. -/
def smartplugRequest (base g bodyBytes : String) : Request :=
  newRequest "POST" (base ++ "/installation/" ++ g ++ "/smartplug/state") (some bodyBytes)

/-- Go: func (v *Verisure) UpdateSmartplug — json.Marshal first (the
marshal oracle); on marshal error return it at once, else one POST with
strict 200 check formatted as "smartplug: code status". -/
def Verisure.UpdateSmartplug (net : Net)
    (marshal : List SmartPlugState → Except String String)
    (v : Verisure) (updates : List SmartPlugState) :
    Verisure × Except String Unit × List Request :=
  match marshal updates with
  | .error e => (v, .error e, [])
  | .ok bs =>
    let req := smartplugRequest v.baseURL v.giid bs
    match net req with
    | .error e => (v, .error e, [req])
    | .ok res =>
      if res.statusCode ≠ 200 then (v, .error (statusError "smartplug" res), [req])
      else (v, .ok (), [req])

/-- Go: func New() Verisure — zero-valued baseURL and giid; the cookie jar
is not modelled. -/
def New : Verisure := { baseURL := "", giid := "" }

/-- Go: func NewWithGIID(giid string) Verisure. -/
def NewWithGIID (g : String) : Verisure := { New with giid := g }

/-- Whether a request carries a header with the given key. -/
def hasHeader (req : Request) (key : String) : Bool :=
  req.headers.any (fun kv => kv.1 == key)

/-- A transport that answers every request with 401 Unauthorized. -/
def netFail : Net :=
  fun _ => .ok { statusCode := 401, status := "401 Unauthorized", body := .null }

/-- A transport on which authentication fails on the first candidate
endpoint and succeeds everywhere else. -/
def netSecondOK : Net := fun req =>
  if req.url == "https://e-api01.verisure.com/xbn/2/cookie"
  then .ok { statusCode := 401, status := "401 Unauthorized", body := .null }
  else .ok { statusCode := 200, status := "200 OK", body := .null }

/-- A transport on which authentication succeeds on the first candidate
endpoint and the installation search returns the empty JSON array. -/
def netEmptyList : Net := fun req =>
  if req.url == "https://e-api01.verisure.com/xbn/2/cookie"
  then .ok { statusCode := 200, status := "200 OK", body := .null }
  else if req.url == "https://e-api01.verisure.com/xbn/2/installation/search?email=u"
  then .ok { statusCode := 200, status := "200 OK", body := .arr [] }
  else .error "unexpected request"

/-- A trivial Overview body decoder used for concrete instantiations. -/
def decUnit : JSON → Except String Unit := fun _ => .ok ()

/-- A marshal oracle that always succeeds with an empty JSON array body. -/
def marshalOK : List SmartPlugState → Except String String := fun _ => .ok "[]"

/-- A marshal oracle that always fails, standing for a payload that
json.Marshal cannot encode. -/
def marshalBad : List SmartPlugState → Except String String :=
  fun _ => .error "json: unsupported type"

theorem authenticate_eq (net : Net) (v : Verisure) (u p : String) :
    v.authenticate net u p = (authOutcome net u p v.baseURL, [authRequest v.baseURL u p]) := by
  simp only [Verisure.authenticate, authOutcome]
  cases h : net (authRequest v.baseURL u p) with
  | error e => simp
  | ok res => by_cases h2 : res.statusCode = 200 <;> simp [h2]

theorem authOK_true_outcome (net : Net) (u p base : String)
    (h : authOK net u p base = true) : authOutcome net u p base = .ok () := by
  unfold authOK at h
  unfold authOutcome
  cases hn : net (authRequest base u p) with
  | error e => rw [hn] at h; simp at h
  | ok res =>
    rw [hn] at h
    have h200 : res.statusCode = 200 := by simpa using h
    simp [h200]

theorem authOK_false_outcome (net : Net) (u p base : String)
    (h : authOK net u p base = false) : ∃ e, authOutcome net u p base = .error e := by
  unfold authOK at h
  unfold authOutcome
  cases hn : net (authRequest base u p) with
  | error e => exact ⟨e, by simp⟩
  | ok res =>
    rw [hn] at h
    have h200 : res.statusCode ≠ 200 := by simpa using h
    exact ⟨statusError "login" res, by simp [h200]⟩

theorem tryURLsLoop_giid (net : Net) (u p : String) :
    ∀ (urls : List String) (v : Verisure) (err0 : Except String Unit),
    (tryURLsLoop net u p urls v err0).1.giid = v.giid := by
  intro urls
  induction urls with
  | nil => intro v err0; rfl
  | cons x xs ih =>
    intro v err0
    simp only [tryURLsLoop, authenticate_eq]
    cases h : authOutcome net u p x with
    | ok a => simp [h]
    | error e =>
      simp only [h]
      exact ih { v with baseURL := x } (.error e)

theorem tryURLs_giid (net : Net) (v : Verisure) (u p : String) :
    (v.tryURLs net u p).1.giid = v.giid :=
  tryURLsLoop_giid net u p apiURLs v (.ok ())

theorem tryURLsLoop_firstSuccess (net : Net) (u p : String) :
    ∀ (pre : List String) (u1 : String) (post : List String) (v : Verisure)
      (err0 : Except String Unit),
    (∀ x ∈ pre, authOK net u p x = false) → authOK net u p u1 = true →
    tryURLsLoop net u p (pre ++ u1 :: post) v err0 =
      ({ v with baseURL := u1 }, Except.ok (),
       (pre ++ [u1]).map (fun x => authRequest x u p)) := by
  intro pre
  induction pre with
  | nil =>
    intro u1 post v err0 _ hu1
    have hok := authOK_true_outcome net u p u1 hu1
    simp [tryURLsLoop, authenticate_eq, hok]
  | cons x xs ih =>
    intro u1 post v err0 hpre hu1
    have hx : authOK net u p x = false := hpre x (by simp)
    obtain ⟨e, he⟩ := authOK_false_outcome net u p x hx
    simp only [List.cons_append, tryURLsLoop, authenticate_eq, he, List.append_eq]
    rw [ih u1 post { v with baseURL := x } (.error e)
        (fun y hy => hpre y (by simp [hy])) hu1]
    simp

theorem tryURLsLoop_allFail (net : Net) (u p : String) :
    ∀ (pre : List String) (lastU : String) (v : Verisure)
      (err0 : Except String Unit),
    (∀ x ∈ pre ++ [lastU], authOK net u p x = false) →
    tryURLsLoop net u p (pre ++ [lastU]) v err0 =
      ({ v with baseURL := lastU }, authOutcome net u p lastU,
       (pre ++ [lastU]).map (fun x => authRequest x u p)) := by
  intro pre
  induction pre with
  | nil =>
    intro lastU v err0 hfail
    obtain ⟨e, he⟩ := authOK_false_outcome net u p lastU (hfail lastU (by simp))
    simp [tryURLsLoop, authenticate_eq, he]
  | cons x xs ih =>
    intro lastU v err0 hfail
    have hx : authOK net u p x = false := hfail x (by simp)
    obtain ⟨e, he⟩ := authOK_false_outcome net u p x hx
    simp only [List.cons_append, tryURLsLoop, authenticate_eq, he, List.append_eq]
    rw [ih lastU { v with baseURL := x } (.error e)
        (fun y hy => hfail y (by simp [hy]))]
    simp

theorem login_baseURL_eq_tryURLs (net : Net) (v : Verisure) (u p : String) :
    (v.Login net u p).1.baseURL = (v.tryURLs net u p).1.baseURL := by
  unfold Verisure.Login
  rcases htry : v.tryURLs net u p with ⟨v1, r1, t1⟩
  cases r1 with
  | error e => simp
  | ok a =>
    rcases hins : installation net v1 u with ⟨r2, t2⟩
    cases r2 <;> simp [hins]

theorem login_allFail_eq (net : Net) (u p : String) (v : Verisure)
    (hfail : ∀ x ∈ apiURLs, authOK net u p x = false) :
    v.Login net u p =
      ({ v with baseURL := "https://e-api02.verisure.com/xbn/2" },
       authOutcome net u p "https://e-api02.verisure.com/xbn/2",
       apiURLs.map (fun x => authRequest x u p)) := by
  have htry : tryURLsLoop net u p apiURLs v (Except.ok ()) =
      ({ v with baseURL := "https://e-api02.verisure.com/xbn/2" },
       authOutcome net u p "https://e-api02.verisure.com/xbn/2",
       apiURLs.map (fun x => authRequest x u p)) :=
    tryURLsLoop_allFail net u p ["https://e-api01.verisure.com/xbn/2"]
      "https://e-api02.verisure.com/xbn/2" v (Except.ok ())
      (fun x hx => hfail x hx)
  obtain ⟨e, he⟩ := authOK_false_outcome net u p "https://e-api02.verisure.com/xbn/2"
      (hfail "https://e-api02.verisure.com/xbn/2" (by decide))
  unfold Verisure.Login Verisure.tryURLs
  rw [htry, he]

/-- C1: For every candidate endpoint list split as pre ++ u1 :: post where
authentication fails on every endpoint of pre and returns HTTP 200 on u1,
the endpoint loop of Login attempts exactly the endpoints of pre followed
by u1, in list order, returns success, fixes u1 as the session's active
endpoint, and issues no request to any endpoint of post; and Login leaves
the active endpoint exactly where the loop put it. -/
theorem login_tries_endpoints_in_order_first_success
    (net : Net) (u p : String) (v : Verisure) (err0 : Except String Unit)
    (pre : List String) (u1 : String) (post : List String)
    (hpre : ∀ x ∈ pre, authOK net u p x = false)
    (hu1 : authOK net u p u1 = true) :
    tryURLsLoop net u p (pre ++ u1 :: post) v err0 =
      ({ v with baseURL := u1 }, Except.ok (),
       (pre ++ [u1]).map (fun x => authRequest x u p))
    ∧ (v.Login net u p).1.baseURL = (v.tryURLs net u p).1.baseURL :=
  ⟨tryURLsLoop_firstSuccess net u p pre u1 post v err0 hpre hu1,
   login_baseURL_eq_tryURLs net v u p⟩

/-- Witness for C1: on a transport where the first candidate endpoint
answers 401 and the second 200, the loop attempts both endpoints in order,
fixes the second as active endpoint and succeeds. -/
theorem login_tries_endpoints_in_order_first_success_witness :
    tryURLsLoop netSecondOK "u" "p" apiURLs New (Except.ok ()) =
      ({ New with baseURL := "https://e-api02.verisure.com/xbn/2" }, Except.ok (),
       apiURLs.map (fun x => authRequest x "u" "p"))
    ∧ (New.Login netSecondOK "u" "p").1.baseURL
      = (New.tryURLs netSecondOK "u" "p").1.baseURL :=
  login_tries_endpoints_in_order_first_success netSecondOK "u" "p" New (Except.ok ())
    ["https://e-api01.verisure.com/xbn/2"] "https://e-api02.verisure.com/xbn/2" []
    (by decide) (by decide)

/-- C3 counterexample: with a transport answering 401 everywhere, Login on
a client whose endpoint field held "original" returns the last endpoint's
error, but the endpoint field is not left as it was before the call: it
now holds the second (last) candidate endpoint. -/
theorem login_all_fail_baseURL_changed_cex :
    (Verisure.Login netFail { baseURL := "original", giid := "" } "u" "p").2.1
      = Except.error "login: 401 401 Unauthorized"
    ∧ (Verisure.Login netFail { baseURL := "original", giid := "" } "u" "p").1.baseURL
      = "https://e-api02.verisure.com/xbn/2"
    ∧ (("https://e-api02.verisure.com/xbn/2" : String) == "original") = false :=
  ⟨rfl, rfl, by decide⟩

/-- C3 amended: when authentication fails on every candidate endpoint,
Login returns the error encountered on the last endpoint in the list, and
the session's endpoint field is left holding the last attempted endpoint
(the final element of apiURLs), not its pre-call value. -/
theorem login_all_fail_last_error
    (net : Net) (u p : String) (v : Verisure)
    (hfail : ∀ x ∈ apiURLs, authOK net u p x = false) :
    v.Login net u p =
      ({ v with baseURL := "https://e-api02.verisure.com/xbn/2" },
       authOutcome net u p "https://e-api02.verisure.com/xbn/2",
       apiURLs.map (fun x => authRequest x u p)) :=
  login_allFail_eq net u p v hfail

/-- Witness for amended C3: concrete all-fail transport, fresh client. -/
theorem login_all_fail_last_error_witness :
    Verisure.Login netFail New "u" "p" =
      ({ New with baseURL := "https://e-api02.verisure.com/xbn/2" },
       authOutcome netFail "u" "p" "https://e-api02.verisure.com/xbn/2",
       apiURLs.map (fun x => authRequest x "u" "p")) :=
  login_all_fail_last_error netFail "u" "p" New (by decide)

/-- C5: if authentication returns a non-200 status on every candidate
endpoint, Login returns an error and the only requests issued are the
authentication requests, one per endpoint in order — in particular no
request to the installation-search route is issued, so Resolve
Installation never runs. -/
theorem login_non200_no_search
    (net : Net) (u p : String) (v : Verisure)
    (hstat : ∀ x ∈ apiURLs,
      ∃ res, net (authRequest x u p) = Except.ok res ∧ res.statusCode ≠ 200) :
    (∃ e, (v.Login net u p).2.1 = Except.error e)
    ∧ (v.Login net u p).2.2 = apiURLs.map (fun x => authRequest x u p)
    ∧ ∀ req ∈ (v.Login net u p).2.2, ∃ x ∈ apiURLs, req = authRequest x u p := by
  have hfail : ∀ x ∈ apiURLs, authOK net u p x = false := by
    intro x hx
    obtain ⟨res, h1, h2⟩ := hstat x hx
    unfold authOK
    rw [h1]
    simp [h2]
  have hE := login_allFail_eq net u p v hfail
  obtain ⟨e, he⟩ := authOK_false_outcome net u p "https://e-api02.verisure.com/xbn/2"
      (hfail "https://e-api02.verisure.com/xbn/2" (by decide))
  refine ⟨⟨e, ?_⟩, ?_, ?_⟩
  · rw [hE]; simpa using he
  · rw [hE]
  · rw [hE]
    intro req hreq
    simp only [List.mem_map] at hreq
    obtain ⟨x, hx, hfx⟩ := hreq
    exact ⟨x, hx, hfx.symm⟩

/-- Witness for C5: all-401 transport — Login fails with the login status
error and the trace holds exactly the two authentication requests. -/
theorem login_non200_no_search_witness :
    (Verisure.Login netFail New "u" "p").2.2
      = apiURLs.map (fun x => authRequest x "u" "p")
    ∧ (Verisure.Login netFail New "u" "p").2.1
      = Except.error "login: 401 401 Unauthorized" := by
  have h := login_non200_no_search netFail "u" "p" New
    (fun x _ => ⟨{ statusCode := 401, status := "401 Unauthorized", body := JSON.null },
      rfl, by decide⟩)
  exact ⟨h.2.1, rfl⟩

theorem asMapList_ok :
    ∀ (xs : List JSON), (∀ j ∈ xs, ∃ m, asMap j = Except.ok m) →
    ∃ ms, asMapList xs = Except.ok ms := by
  intro xs
  induction xs with
  | nil => intro _; exact ⟨[], rfl⟩
  | cons x rest ih =>
    intro h
    obtain ⟨m, hm⟩ := h x (by simp)
    obtain ⟨ms, hms⟩ := ih (fun j hj => h j (by simp [hj]))
    exact ⟨m :: ms, by simp [asMapList, hm, hms]⟩

/-- C2: on a body that parses as a non-empty JSON array of objects, the
giid extractor returns the string value of the first object's giid key,
ignoring every other element and every other key, and fails with
"no giid found" exactly when the first object's giid key is absent or its
value is not a string. -/
theorem giid_first_record_extraction
    (first : List (String × JSON)) (rest : List JSON)
    (hrest : ∀ j ∈ rest, ∃ m, asMap j = Except.ok m) :
    (∀ s, mapIndex first "giid" = some (JSON.str s) →
      giid (JSON.arr (JSON.obj first :: rest)) = Except.ok s)
    ∧ ((∀ s, mapIndex first "giid" ≠ some (JSON.str s)) →
      giid (JSON.arr (JSON.obj first :: rest)) = Except.error "no giid found") := by
  obtain ⟨ms, hms⟩ := asMapList_ok rest hrest
  constructor
  · intro s hs
    simp [giid, decodeMaps, asMapList, asMap, hms, hs]
  · intro h
    cases hmi : mapIndex first "giid" with
    | none => simp [giid, decodeMaps, asMapList, asMap, hms, hmi]
    | some j =>
      cases j with
      | str s => exact absurd hmi (h s)
      | null => simp [giid, decodeMaps, asMapList, asMap, hms, hmi]
      | bool b => simp [giid, decodeMaps, asMapList, asMap, hms, hmi]
      | num n => simp [giid, decodeMaps, asMapList, asMap, hms, hmi]
      | arr elems => simp [giid, decodeMaps, asMapList, asMap, hms, hmi]
      | obj fields => simp [giid, decodeMaps, asMapList, asMap, hms, hmi]

/-- Witness for C2: the spec's example body yields "ABC123" from the first
record only, and a first record without a giid key yields "no giid found". -/
theorem giid_first_record_extraction_witness :
    giid (JSON.arr [JSON.obj [("giid", JSON.str "ABC123"), ("other", JSON.num 1)],
                    JSON.obj [("giid", JSON.str "ZZZ999")]]) = Except.ok "ABC123"
    ∧ giid (JSON.arr [JSON.obj [("other", JSON.num 1)]])
      = Except.error "no giid found" := by
  constructor
  · exact (giid_first_record_extraction
      [("giid", JSON.str "ABC123"), ("other", JSON.num 1)]
      [JSON.obj [("giid", JSON.str "ZZZ999")]]
      (by intro j hj; simp only [List.mem_singleton] at hj; subst hj; exact ⟨_, rfl⟩)).1
      "ABC123" rfl
  · exact (giid_first_record_extraction [("other", JSON.num 1)] []
      (by intro j hj; simp at hj)).2
      (by intro s hs; simp [mapIndex, List.foldl] at hs)

/-- C4: if the endpoint fixed by authentication answers the installation
search with 200 and the empty JSON array, Login fails with
"no installations found" and the session's installation identifier field
is unchanged. -/
theorem login_empty_installations
    (net : Net) (u p : String) (v v1 : Verisure) (t1 : List Request) (res : Response)
    (htry : v.tryURLs net u p = (v1, Except.ok (), t1))
    (hres : net (searchRequest v1.baseURL u) = Except.ok res)
    (hcode : res.statusCode = 200)
    (hbody : res.body = JSON.arr []) :
    (v.Login net u p).2.1 = Except.error "no installations found"
    ∧ (v.Login net u p).1.giid = v.giid := by
  have hgiid : v1.giid = v.giid := by
    have h := tryURLs_giid net v u p
    rw [htry] at h
    exact h
  have hins : installation net v1 u =
      (Except.error "no installations found", [searchRequest v1.baseURL u]) := by
    simp [installation, hres, hcode, hbody, giid, decodeMaps, asMapList]
  constructor
  · simp [Verisure.Login, htry, hins]
  · simp only [Verisure.Login, htry, hins]
    simpa using hgiid

/-- Witness for C4: a transport where the first endpoint authenticates and
the search answers 200 with the empty array; the fresh client's identifier
stays empty and Login reports "no installations found". -/
theorem login_empty_installations_witness :
    (Verisure.Login netEmptyList New "u" "p").2.1
      = Except.error "no installations found"
    ∧ (Verisure.Login netEmptyList New "u" "p").1.giid = "" :=
  login_empty_installations netEmptyList "u" "p" New
    { baseURL := "https://e-api01.verisure.com/xbn/2", giid := "" }
    [authRequest "https://e-api01.verisure.com/xbn/2" "u" "p"]
    { statusCode := 200, status := "200 OK", body := JSON.arr [] }
    rfl rfl rfl rfl

/-- C8: Logout leaves the session's active endpoint and installation
identifier exactly as they were before the call, whatever the transport
outcome. -/
theorem logout_preserves_fields (net : Net) (v : Verisure) :
    ((v.Logout net).1.baseURL = v.baseURL) ∧ ((v.Logout net).1.giid = v.giid) := by
  simp only [Verisure.Logout]
  cases h : net (logoutRequest v.baseURL) with
  | error e => simp
  | ok res => by_cases h2 : res.statusCode = 200 <;> simp [h2]

/-- C9: when the marshal of the update list fails, UpdateSmartplug returns
that serialization error, the client state is untouched, and no HTTP
request is issued. -/
theorem updatesmartplug_marshal_error_no_request
    (net : Net) (marshal : List SmartPlugState → Except String String)
    (v : Verisure) (updates : List SmartPlugState) (e : String)
    (hm : marshal updates = Except.error e) :
    v.UpdateSmartplug net marshal updates = (v, Except.error e, []) := by
  unfold Verisure.UpdateSmartplug
  rw [hm]

/-- Witness for C9: a failing marshal oracle — the error comes back and
the trace is empty. -/
theorem updatesmartplug_marshal_error_no_request_witness :
    Verisure.UpdateSmartplug netFail marshalBad New []
      = (New, Except.error "json: unsupported type", []) :=
  updatesmartplug_marshal_error_no_request netFail marshalBad New []
    "json: unsupported type" rfl

/-- C10: whenever Login returns an error — authentication failed
everywhere or installation resolution failed afterwards — the installation
identifier field is unchanged from its pre-call value. -/
theorem login_error_preserves_giid
    (net : Net) (u p : String) (v : Verisure) (e : String)
    (h : (v.Login net u p).2.1 = Except.error e) :
    (v.Login net u p).1.giid = v.giid := by
  have hg := tryURLs_giid net v u p
  rcases htry : v.tryURLs net u p with ⟨v1, r1, t1⟩
  rw [htry] at hg
  cases r1 with
  | error e1 =>
    simp only [Verisure.Login, htry]
    simpa using hg
  | ok a =>
    rcases hins : installation net v1 u with ⟨r2, t2⟩
    cases r2 with
    | error e2 =>
      simp only [Verisure.Login, htry, hins]
      simpa using hg
    | ok g =>
      exfalso
      simp [Verisure.Login, htry, hins] at h

/-- Witness for C10: an identifier supplied via NewWithGIID survives a
Login that fails on every endpoint. -/
theorem login_error_preserves_giid_witness :
    (Verisure.Login netFail (NewWithGIID "12345") "u" "p").1.giid = "12345" :=
  login_error_preserves_giid netFail "u" "p" (NewWithGIID "12345")
    "login: 401 401 Unauthorized" rfl

theorem overview_trace {α : Type} (net : Net) (dec : JSON → Except String α)
    (v : Verisure) :
    (v.Overview net dec).2.2 = [overviewRequest v.baseURL v.giid] := by
  simp only [Verisure.Overview]
  cases h : net (overviewRequest v.baseURL v.giid) with
  | error e => simp
  | ok res =>
    by_cases h2 : res.statusCode = 200
    · cases hd : dec res.body <;> simp [h2, hd]
    · simp [h2]

theorem smartplug_trace (net : Net)
    (marshal : List SmartPlugState → Except String String)
    (v : Verisure) (updates : List SmartPlugState) (bs : String)
    (hm : marshal updates = Except.ok bs) :
    (v.UpdateSmartplug net marshal updates).2.2
      = [smartplugRequest v.baseURL v.giid bs] := by
  simp only [Verisure.UpdateSmartplug, hm]
  cases h : net (smartplugRequest v.baseURL v.giid bs) with
  | error e => simp
  | ok res => by_cases h2 : res.statusCode = 200 <;> simp [h2]

theorem logout_trace (net : Net) (v : Verisure) :
    (v.Logout net).2.2 = [logoutRequest v.baseURL] := by
  simp only [Verisure.Logout]
  cases h : net (logoutRequest v.baseURL) with
  | error e => simp
  | ok res => by_cases h2 : res.statusCode = 200 <;> simp [h2]

theorem installation_trace (net : Net) (v : Verisure) (u : String) :
    (installation net v u).2 = [searchRequest v.baseURL u] := by
  simp only [installation]
  cases h : net (searchRequest v.baseURL u) with
  | error e => simp
  | ok res => by_cases h2 : res.statusCode = 200 <;> simp [h2]

theorem overview_non200 {α : Type} (net : Net) (dec : JSON → Except String α)
    (v : Verisure) (res : Response)
    (h : net (overviewRequest v.baseURL v.giid) = Except.ok res)
    (hn : res.statusCode ≠ 200) :
    (v.Overview net dec).2.1 = Except.error (statusError "overview" res) := by
  simp [Verisure.Overview, h, hn]

theorem smartplug_non200 (net : Net)
    (marshal : List SmartPlugState → Except String String)
    (v : Verisure) (updates : List SmartPlugState) (bs : String) (res : Response)
    (hm : marshal updates = Except.ok bs)
    (h : net (smartplugRequest v.baseURL v.giid bs) = Except.ok res)
    (hn : res.statusCode ≠ 200) :
    (v.UpdateSmartplug net marshal updates).2.1
      = Except.error (statusError "smartplug" res) := by
  simp [Verisure.UpdateSmartplug, hm, h, hn]

theorem logout_non200 (net : Net) (v : Verisure) (res : Response)
    (h : net (logoutRequest v.baseURL) = Except.ok res)
    (hn : res.statusCode ≠ 200) :
    (v.Logout net).2.1 = Except.error (statusError "logout" res) := by
  simp [Verisure.Logout, h, hn]

/-- C6: the Resource Client operations perform no local precondition
check: for every client state — authenticated or not — Overview,
UpdateSmartplug (once its payload marshals) and Logout each hand exactly
their one request to the transport whatever the transport does, and when
the transport answers with a non-200 response the operation's failure is
exactly that server-side status error, never a local one. -/
theorem resource_ops_no_local_check {α : Type}
    (net : Net) (dec : JSON → Except String α)
    (marshal : List SmartPlugState → Except String String)
    (v : Verisure) (updates : List SmartPlugState) (bs : String)
    (r1 r2 r3 : Response)
    (hm : marshal updates = Except.ok bs)
    (h1 : net (overviewRequest v.baseURL v.giid) = Except.ok r1)
    (h2 : net (smartplugRequest v.baseURL v.giid bs) = Except.ok r2)
    (h3 : net (logoutRequest v.baseURL) = Except.ok r3)
    (n1 : r1.statusCode ≠ 200) (n2 : r2.statusCode ≠ 200) (n3 : r3.statusCode ≠ 200) :
    (∀ tr : Net, (v.Overview tr dec).2.2 = [overviewRequest v.baseURL v.giid]
      ∧ (v.UpdateSmartplug tr marshal updates).2.2
        = [smartplugRequest v.baseURL v.giid bs]
      ∧ (v.Logout tr).2.2 = [logoutRequest v.baseURL])
    ∧ (v.Overview net dec).2.1 = Except.error (statusError "overview" r1)
    ∧ (v.UpdateSmartplug net marshal updates).2.1
      = Except.error (statusError "smartplug" r2)
    ∧ (v.Logout net).2.1 = Except.error (statusError "logout" r3) :=
  ⟨fun tr => ⟨overview_trace tr dec v, smartplug_trace tr marshal v updates bs hm,
    logout_trace tr v⟩,
   overview_non200 net dec v r1 h1 n1,
   smartplug_non200 net marshal v updates bs r2 hm h2 n2,
   logout_non200 net v r3 h3 n3⟩

/-- Witness for C6: on a freshly constructed, never-logged-in client with
an all-401 transport, each operation still issues its one request (no
local failure) and fails with the server's status error. -/
theorem resource_ops_no_local_check_witness :
    (New.Overview netFail decUnit).2.2 = [overviewRequest "" ""]
    ∧ (New.UpdateSmartplug netFail marshalOK []).2.2 = [smartplugRequest "" "" "[]"]
    ∧ (New.Logout netFail).2.2 = [logoutRequest ""]
    ∧ (New.Overview netFail decUnit).2.1
      = Except.error "overview: 401 401 Unauthorized"
    ∧ (New.UpdateSmartplug netFail marshalOK []).2.1
      = Except.error "smartplug: 401 401 Unauthorized"
    ∧ (New.Logout netFail).2.1 = Except.error "logout: 401 401 Unauthorized" := by
  have h := resource_ops_no_local_check netFail decUnit marshalOK New [] "[]"
    { statusCode := 401, status := "401 Unauthorized", body := JSON.null }
    { statusCode := 401, status := "401 Unauthorized", body := JSON.null }
    { statusCode := 401, status := "401 Unauthorized", body := JSON.null }
    rfl rfl rfl rfl (by decide) (by decide) (by decide)
  exact ⟨(h.1 netFail).1, (h.1 netFail).2.1, (h.1 netFail).2.2,
    h.2.1, h.2.2.1, h.2.2.2⟩

theorem tryURLsLoop_trace_auth (net : Net) (u p : String) :
    ∀ (urls : List String) (v : Verisure) (err0 : Except String Unit)
      (req : Request),
    req ∈ (tryURLsLoop net u p urls v err0).2.2 → ∃ x, req = authRequest x u p := by
  intro urls
  induction urls with
  | nil => intro v err0 req h; simp [tryURLsLoop] at h
  | cons x xs ih =>
    intro v err0 req h
    simp only [tryURLsLoop, authenticate_eq] at h
    cases ha : authOutcome net u p x with
    | ok a =>
      rw [ha] at h
      simp at h
      exact ⟨x, h⟩
    | error e =>
      rw [ha] at h
      simp only [List.nil_append, List.cons_append, List.mem_cons] at h
      rcases h with h | h
      · exact ⟨x, h⟩
      · exact ih { v with baseURL := x } (.error e) req h

theorem login_trace_from (net : Net) (u p : String) (v : Verisure) :
    ∀ req ∈ (v.Login net u p).2.2,
      (∃ x, req = authRequest x u p) ∨ (∃ b, req = searchRequest b u) := by
  rcases htry : v.tryURLs net u p with ⟨v1, r1, t1⟩
  have htr : ∀ req ∈ t1, ∃ x, req = authRequest x u p := by
    intro req h
    refine tryURLsLoop_trace_auth net u p apiURLs v (.ok ()) req ?_
    have : (v.tryURLs net u p).2.2 = t1 := by rw [htry]
    rw [Verisure.tryURLs] at this
    rw [this]
    exact h
  cases r1 with
  | error e =>
    simp only [Verisure.Login, htry]
    intro req h
    exact Or.inl (htr req h)
  | ok a =>
    rcases hins : installation net v1 u with ⟨r2, t2⟩
    have ht2 : t2 = [searchRequest v1.baseURL u] := by
      have h := installation_trace net v1 u
      rw [hins] at h
      exact h
    cases r2 with
    | error e2 =>
      simp only [Verisure.Login, htry, hins]
      intro req h
      rcases List.mem_append.mp h with h | h
      · exact Or.inl (htr req h)
      · rw [ht2] at h
        simp at h
        exact Or.inr ⟨v1.baseURL, h⟩
    | ok g =>
      simp only [Verisure.Login, htry, hins]
      intro req h
      rcases List.mem_append.mp h with h | h
      · exact Or.inl (htr req h)
      · rw [ht2] at h
        simp at h
        exact Or.inr ⟨v1.baseURL, h⟩

/-- C7 counterexample: Logout issues a request built without the media
type headers — an outbound request that carries neither Accept nor
Content-Type, so not every outbound request carries both. -/
theorem request_headers_cex :
    (Verisure.Logout netFail New).2.2 = [logoutRequest ""]
    ∧ hasHeader (logoutRequest "") "Accept" = false
    ∧ hasHeader (logoutRequest "") "Content-Type" = false :=
  ⟨rfl, rfl, rfl⟩

/-- C7 amended: every request issued by Login (authentication and
installation search), by Overview and by UpdateSmartplug carries both the
Accept and the Content-Type header; the request issued by Logout is built
without them and carries neither. -/
theorem request_headers {α : Type}
    (net : Net) (dec : JSON → Except String α)
    (marshal : List SmartPlugState → Except String String)
    (v : Verisure) (u p : String) (updates : List SmartPlugState) (bs : String)
    (hm : marshal updates = Except.ok bs) :
    (∀ req ∈ (v.Login net u p).2.2,
      hasHeader req "Accept" = true ∧ hasHeader req "Content-Type" = true)
    ∧ (∀ req ∈ (v.Overview net dec).2.2,
      hasHeader req "Accept" = true ∧ hasHeader req "Content-Type" = true)
    ∧ (∀ req ∈ (v.UpdateSmartplug net marshal updates).2.2,
      hasHeader req "Accept" = true ∧ hasHeader req "Content-Type" = true)
    ∧ (∀ req ∈ (v.Logout net).2.2,
      hasHeader req "Accept" = false ∧ hasHeader req "Content-Type" = false) := by
  refine ⟨?_, ?_, ?_, ?_⟩
  · intro req h
    rcases login_trace_from net u p v req h with ⟨x, rfl⟩ | ⟨b, rfl⟩
    · exact ⟨rfl, rfl⟩
    · exact ⟨rfl, rfl⟩
  · intro req h
    rw [overview_trace net dec v] at h
    simp at h
    subst h
    exact ⟨rfl, rfl⟩
  · intro req h
    rw [smartplug_trace net marshal v updates bs hm] at h
    simp at h
    subst h
    exact ⟨rfl, rfl⟩
  · intro req h
    rw [logout_trace net v] at h
    simp at h
    subst h
    exact ⟨rfl, rfl⟩

/-- Witness for amended C7: concrete requests from each operation — the
authentication and overview requests carry the headers, the logout request
does not. -/
theorem request_headers_witness :
    hasHeader (authRequest "https://e-api01.verisure.com/xbn/2" "u" "p") "Accept" = true
    ∧ hasHeader (overviewRequest "" "") "Content-Type" = true
    ∧ hasHeader (logoutRequest "") "Accept" = false := by
  have h := request_headers netFail decUnit marshalOK New "u" "p" [] "[]" rfl
  refine ⟨?_, ?_, ?_⟩
  · exact (h.1 (authRequest "https://e-api01.verisure.com/xbn/2" "u" "p")
      (by decide)).1
  · exact (h.2.1 (overviewRequest "" "") (by decide)).2
  · exact (h.2.2.2 (logoutRequest "") (by decide)).1
